import Mathlib

/-!
Verification of the agent dispatch pipeline of the MCP-Server repository
(`app/llm_agent.py` and the `/ask` boundary in `app/router.py`), as a
shallow embedding in Lean 4.

JSON values decoded by `json.loads` are modelled by the inductive `Json`.
The raw streamed model response is modelled line by line: after Python's
`line.strip()` check and `json.loads(line)`, each line is either
whitespace-only, unparseable, or carries a decoded JSON value
(`StreamLine`).  The two network calls (model and tool) are modelled by
outcome oracles (`ModelOutcome`, `ToolOutcome`), and `json.loads` applied
to the assembled instruction string is modelled by a decode oracle passed
to the orchestrator.  Python exceptions that no `except` clause in
`run_agent` catches (`AttributeError` from calling `.get` on a non-dict,
`TypeError` from `str.join` over non-strings) are modelled by `PyExc` and
surface as the `uncaught` error kind, which the `/ask` boundary maps to
`internal_error`.
-/

namespace MCP

/-- A JSON value as decoded by Python's `json.loads`.  Numbers are
modelled as integers (the arguments' contents are opaque to the core). -/
inductive Json where
  | null : Json
  | bool (b : Bool) : Json
  | num (n : Int) : Json
  | str (s : String) : Json
  | arr (elems : List Json) : Json
  | obj (fields : List (String × Json)) : Json

/-- Dictionary lookup, modelling `d.get(k)` / `k in d` on a decoded JSON
object (keys of a decoded object are unique). -/
def lookupField : List (String × Json) → String → Option Json
  | [], _ => none
  | (k, v) :: rest, key => if k = key then some v else lookupField rest key

/-- Python's `type(v).__name__` for a decoded JSON value. -/
def Json.pyTypeName : Json → String
  | .null => "NoneType"
  | .bool _ => "bool"
  | .num _ => "int"
  | .str _ => "str"
  | .arr _ => "list"
  | .obj _ => "dict"

/-- Python truthiness of a decoded JSON value (`if part:`). -/
def Json.truthy : Json → Bool
  | .null => false
  | .bool b => b
  | .num n => n != 0
  | .str s => s != ""
  | .arr elems => !elems.isEmpty
  | .obj fields => !fields.isEmpty

/-- Whether the value is a Python `dict` (`isinstance(v, dict)`). -/
def Json.isObj : Json → Bool
  | .obj _ => true
  | _ => false

/-- Whether the value is a Python `str` (`isinstance(v, str)`). -/
def Json.isStr : Json → Bool
  | .str _ => true
  | _ => false

/-- A Python exception that no `except` clause inside `run_agent`
catches. -/
inductive PyExc where
  | attributeError : PyExc
  | typeError : PyExc

/-- The error raised by a failing run of the pipeline: the three
`AgentError` subclasses of `app/llm_agent.py`, plus `uncaught` for a
Python exception that escapes `run_agent` itself. -/
inductive AgentErr where
  | llmConnection (msg : String) : AgentErr
  | llmResponse (msg : String) : AgentErr
  | toolDispatch (msg : String) : AgentErr
  | uncaught (e : PyExc) : AgentErr

/-- One line of the raw streamed model response, after `line.strip()`
and `json.loads(line)` are taken into account: whitespace-only,
unparseable as JSON, or decoded to a JSON value. -/
inductive StreamLine where
  | blank : StreamLine
  | invalid : StreamLine
  | parsed (j : Json) : StreamLine

/-- `chunk.get("message", {}).get("content", "")` on a decoded chunk.
Calling `.get` on a non-dict (a non-object chunk, or a `message` value
that is not an object) raises `AttributeError`. -/
def getContent : Json → Except PyExc Json
  | .obj fields =>
    match lookupField fields "message" with
    | none => .ok (.str "")
    | some (.obj msgFields) =>
      match lookupField msgFields "content" with
      | none => .ok (.str "")
      | some v => .ok v
    | some _ => .error .attributeError
  | _ => .error .attributeError

/-- The stitching loop of `run_agent` step 2: walk the lines, skip
whitespace-only ones, count and drop unparseable ones, extract
`message.content` from each decoded chunk and collect the truthy parts.
Returns the collected parts together with the valid and invalid chunk
counts, or the first uncaught Python exception. -/
def stitchLoop : List StreamLine → Except PyExc (List Json × Nat × Nat)
  | [] => .ok ([], 0, 0)
  | .blank :: rest => stitchLoop rest
  | .invalid :: rest =>
    match stitchLoop rest with
    | .ok (c, v, i) => .ok (c, v, i + 1)
    | .error e => .error e
  | .parsed j :: rest =>
    match getContent j with
    | .error e => .error e
    | .ok part =>
      if part.truthy then
        match stitchLoop rest with
        | .ok (c, v, i) => .ok (part :: c, v + 1, i)
        | .error e => .error e
      else stitchLoop rest

/-- `"".join(contents)`: concatenates the collected parts, raising
`TypeError` at the first element that is not a string. -/
def joinStrs : List Json → Except PyExc String
  | [] => .ok ""
  | .str s :: rest =>
    match joinStrs rest with
    | .ok r => .ok (s ++ r)
    | .error e => .error e
  | _ :: _ => .error .typeError

/-- Python's `s.strip()`: drop whitespace from both ends. -/
def pyStrip (s : String) : String :=
  String.mk (((s.data.dropWhile Char.isWhitespace).reverse.dropWhile
    Char.isWhitespace).reverse)

/-- The Response Assembler (`run_agent` step 2): stitch the streamed
lines, join the fragments, strip the result, and fail with
`LLMResponseError` when the assembled string is empty. -/
def assemble (lines : List StreamLine) : Except AgentErr String :=
  match stitchLoop lines with
  | .error e => .error (.uncaught e)
  | .ok (contents, _, _) =>
    match joinStrs contents with
    | .error e => .error (.uncaught e)
    | .ok joined =>
      if pyStrip joined = "" then
        .error (.llmResponse "LLM returned empty response")
      else .ok (pyStrip joined)

/-- A validated tool instruction: the `tool` string and the `args`
object extracted from the assembled response. -/
structure Instruction where
  tool : String
  args : List (String × Json)

/-- The Instruction Parser (`run_agent` step 3) applied to the decoded
assembled string: require an object with a string `tool` and a dict
`args`, raising `LLMResponseError` with the specific `ValueError`
message otherwise. -/
def parseInstruction : Json → Except AgentErr Instruction
  | .obj fields =>
    match lookupField fields "tool" with
    | none =>
      .error (.llmResponse
        "Invalid response structure: Missing \x27tool\x27 key in response")
    | some toolVal =>
      match lookupField fields "args" with
      | none =>
        .error (.llmResponse
          "Invalid response structure: Missing \x27args\x27 key in response")
      | some argsVal =>
        match toolVal with
        | .str t =>
          match argsVal with
          | .obj a => .ok ⟨t, a⟩
          | _ =>
            .error (.llmResponse
              ("Invalid response structure: Args must be dict, got " ++
                argsVal.pyTypeName))
        | _ =>
          .error (.llmResponse
            ("Invalid response structure: Tool must be string, got " ++
              toolVal.pyTypeName))
  | j =>
    .error (.llmResponse
      ("Invalid response structure: Expected dict, got " ++ j.pyTypeName))

/-- `json.loads(assistant_json_str)` followed by the field validation:
the decode oracle models `json.loads` (an `.error` carries the
`JSONDecodeError` text). -/
def parseAssembled (decode : String → Except String Json) (s : String) :
    Except AgentErr Instruction :=
  match decode s with
  | .error msg =>
    .error (.llmResponse ("Invalid JSON in LLM response: " ++ msg))
  | .ok js => parseInstruction js

/-- Tool-name normalization (`run_agent` step 4):
`tool.replace("_", "-")`. -/
def normalizeTool (t : String) : String :=
  String.mk (t.data.map fun c => if c = '_' then '-' else c)

/-- Python's `s.rstrip("/")`: drop trailing slashes. -/
def rstripSlash (s : String) : String :=
  String.mk ((s.data.reverse.dropWhile fun c => c = '/').reverse)

/-- The dispatch URL (`run_agent` step 4):
`f"{local_base}/{tool_path}"` with `local_base` the configured base
address stripped of trailing slashes and `tool_path` the normalized
tool name. -/
def buildToolUrl (localBase tool : String) : String :=
  rstripSlash localBase ++ "/" ++ normalizeTool tool

/-- The fragment a streamed line contributes to the assembled string:
`some s` exactly when the line decodes to a JSON object carrying a
non-empty string `s` at `message.content`. -/
def lineFrag : StreamLine → Option String
  | .parsed j =>
    match getContent j with
    | .ok (.str s) => if s = "" then none else some s
    | _ => none
  | _ => none

/-- The shapes of streamed lines the specification describes:
whitespace-only, invalid JSON, or a chunk carrying a non-empty
`message.content` fragment. -/
def lineShapeOk : StreamLine → Bool
  | .blank => true
  | .invalid => true
  | l => (lineFrag l).isSome

/-- The decoded lines on which the stitching loop and the join cannot
raise an uncaught exception: anything but a decoded chunk that is not
an object, has a non-object `message` value, or carries a truthy
non-string `content`. -/
def lineSafe : StreamLine → Bool
  | .blank => true
  | .invalid => true
  | .parsed j =>
    match getContent j with
    | .error _ => false
    | .ok (.str _) => true
    | .ok v => !v.truthy

/-- Whether a streamed line fails JSON decoding. -/
def isInvalidLine : StreamLine → Bool
  | .invalid => true
  | _ => false

/-- The number of streamed lines that fail JSON decoding. -/
def countInvalid (lines : List StreamLine) : Nat :=
  lines.countP isInvalidLine

/-- Concatenation of a list of strings in order, with no separator. -/
def concatAll : List String → String
  | [] => ""
  | s :: rest => s ++ concatAll rest

/-- The outcome of the model call (`run_agent` step 1): an `httpx`
timeout, a non-success status (`raise_for_status`), a network error,
any other exception, or a successful response whose body is the
streamed lines. -/
inductive ModelOutcome where
  | timeout : ModelOutcome
  | httpStatus (code : Nat) : ModelOutcome
  | netError (msg : String) : ModelOutcome
  | unexpected (msg : String) : ModelOutcome
  | ok (lines : List StreamLine) : ModelOutcome

/-- The model call with its error handling (`run_agent` step 1): every
failure becomes an `LLMConnectionError`. -/
def callModel (chatUrl : String) : ModelOutcome →
    Except AgentErr (List StreamLine)
  | .timeout =>
    .error (.llmConnection ("Timeout connecting to LLM service at " ++ chatUrl))
  | .httpStatus code =>
    .error (.llmConnection
      ("HTTP " ++ toString code ++ " error from LLM service"))
  | .netError msg =>
    .error (.llmConnection
      ("Network error connecting to LLM service: " ++ msg))
  | .unexpected msg =>
    .error (.llmConnection ("Unexpected error calling LLM service: " ++ msg))
  | .ok lines => .ok lines

/-- The outcome of the tool call (`run_agent` step 5): a timeout, a
network error, any other exception, or a response with its status code
and body — the body is `some j` when `tool_resp.json()` decodes to `j`
and `none` when it raises `JSONDecodeError`. -/
inductive ToolOutcome where
  | timeout : ToolOutcome
  | netError (msg : String) : ToolOutcome
  | unexpected (msg : String) : ToolOutcome
  | resp (status : Nat) (body : Option Json) : ToolOutcome

/-- The tool call with its error handling (`run_agent` step 5): a 404
status is reported as tool-not-found (with the path), any other
non-2xx status as an HTTP error carrying the status code
(`raise_for_status`), an undecodable body as invalid JSON, and
timeouts, network errors and unexpected exceptions with their own
messages; every failure becomes a `ToolDispatchError`. -/
def dispatchTool (tool : String) : ToolOutcome → Except AgentErr Json
  | .resp status body =>
    if status = 404 then
      .error (.toolDispatch
        ("Tool \x27" ++ tool ++
          ("\x27 not found (path: " ++ normalizeTool tool ++ ")")))
    else if 200 ≤ status ∧ status < 300 then
      match body with
      | some j => .ok j
      | none =>
        .error (.toolDispatch
          ("Tool \x27" ++ tool ++ "\x27 returned invalid JSON"))
    else
      .error (.toolDispatch
        ("Tool \x27" ++ tool ++ ("\x27 returned HTTP " ++ toString status)))
  | .timeout =>
    .error (.toolDispatch ("Timeout calling tool \x27" ++ tool ++ "\x27"))
  | .netError msg =>
    .error (.toolDispatch
      ("Network error calling tool \x27" ++ tool ++ ("\x27: " ++ msg)))
  | .unexpected msg =>
    .error (.toolDispatch
      ("Unexpected error calling tool \x27" ++ tool ++ ("\x27: " ++ msg)))

/-- The observable outcome of one `run_agent` execution: the returned
value or raised error, how many times the model endpoint and the tool
endpoint were called, whether instruction parsing was reached, and the
URL of the attempted tool call, if any. -/
structure AgentRun where
  result : Except AgentErr Json
  modelCalls : Nat
  parseAttempts : Nat
  toolCalls : Nat
  toolUrl : Option String

/-- The Orchestrator `run_agent`: model call, response assembly,
instruction parsing, tool-name normalization and dispatch, strictly in
sequence, stopping at the first failure.  `decode` models `json.loads`
on the assembled string; the two outcome oracles model the network. -/
def run_agent (decode : String → Except String Json)
    (llmBase localBase : String) (model : ModelOutcome)
    (tool : ToolOutcome) : AgentRun :=
  let chatUrl := rstripSlash llmBase ++ "/api/chat"
  match callModel chatUrl model with
  | .error e => ⟨.error e, 1, 0, 0, none⟩
  | .ok lines =>
    match assemble lines with
    | .error e => ⟨.error e, 1, 0, 0, none⟩
    | .ok s =>
      match parseAssembled decode s with
      | .error e => ⟨.error e, 1, 1, 0, none⟩
      | .ok instr =>
        ⟨dispatchTool instr.tool tool, 1, 1, 1,
          some (buildToolUrl localBase instr.tool)⟩

/-- The `error_type` string the `/ask` boundary reports for each error
kind of the taxonomy. -/
def errorTypeName : AgentErr → String
  | .llmConnection _ => "llm_connection_error"
  | .llmResponse _ => "llm_response_error"
  | .toolDispatch _ => "tool_dispatch_error"
  | .uncaught _ => "internal_error"

/-- The `/ask` boundary (`ask_llm` in `app/router.py`) applied to the
outcome of `run_agent`: a structured success or error object; every
error kind, including an uncaught exception, is converted, never
re-raised. -/
def ask_llm : Except AgentErr Json → Json
  | .ok v => .obj [("result", v), ("status", .str "success")]
  | .error (.llmConnection m) =>
    .obj [("error", .str "LLM service unavailable"), ("details", .str m),
      ("error_type", .str "llm_connection_error"), ("status", .str "error")]
  | .error (.llmResponse m) =>
    .obj [("error", .str "Invalid response from LLM"), ("details", .str m),
      ("error_type", .str "llm_response_error"), ("status", .str "error")]
  | .error (.toolDispatch m) =>
    .obj [("error", .str "Tool execution failed"), ("details", .str m),
      ("error_type", .str "tool_dispatch_error"), ("status", .str "error")]
  | .error (.uncaught _) =>
    .obj [("error", .str "Internal server error"),
      ("details",
        .str "An unexpected error occurred while processing your request"),
      ("error_type", .str "internal_error"), ("status", .str "error")]

/-- A streamed line whose chunk carries the fragment `"INSTR"`. -/
def instrLine : StreamLine :=
  .parsed (.obj [("message", .obj [("content", .str "INSTR")])])

/-- A streamed line whose chunk carries a fragment that is a non-empty
string consisting of whitespace only. -/
def wsFragLine : StreamLine :=
  .parsed (.obj [("message", .obj [("content", .str " ")])])

/-- A concrete safe stream: a blank line, an invalid line, a chunk with
a fragment, and a chunk whose `content` is falsy. -/
def safeLines : List StreamLine :=
  [.blank, .invalid, .parsed (.obj [("message", .obj [("content", .str "ok")])]),
    .parsed (.obj [("message", .obj [("content", .bool false)])])]

/-- A decode oracle under which the assembled string decodes to an
instruction whose `tool` is the empty string. -/
def decodeEmptyTool : String → Except String Json := fun _ =>
  .ok (.obj [("tool", .str ""), ("args", .obj [])])

/-- A decode oracle under which the assembled string decodes to an
instruction whose `tool` contains a slash, a dot and a space. -/
def decodeOddTool : String → Except String Json := fun _ =>
  .ok (.obj [("tool", .str "../x y.z/w"), ("args", .obj [])])

/-- A line that the specification describes (blank, invalid, or a
non-empty fragment chunk) cannot raise an uncaught exception. -/
theorem lineShapeOk_imp_lineSafe {l : StreamLine}
    (h : lineShapeOk l = true) : lineSafe l = true := by
  cases l with
  | blank => rfl
  | invalid => rfl
  | parsed j =>
    simp only [lineShapeOk, lineFrag] at h
    simp only [lineSafe]
    cases hg : getContent j with
    | error e => simp [hg] at h
    | ok v =>
      cases v with
      | str s => simp
      | null => simp [hg] at h
      | bool b => simp [hg] at h
      | num n => simp [hg] at h
      | arr elems => simp [hg] at h
      | obj fields => simp [hg] at h

/-- Case analysis on a safe decoded line: it either carries a non-empty
string fragment, or contributes nothing. -/
theorem lineSafe_elim {j : Json} (hl : lineSafe (.parsed j) = true) :
    (∃ s, s ≠ "" ∧ getContent j = .ok (.str s)) ∨
      (∃ v, getContent j = .ok v ∧ v.truthy = false ∧
        lineFrag (.parsed j) = none) := by
  cases hg : getContent j with
  | error e => simp [lineSafe, hg] at hl
  | ok v =>
    cases v with
    | str s =>
      by_cases hs : s = ""
      · subst hs
        exact Or.inr ⟨_, rfl, by simp [Json.truthy], by simp [lineFrag, hg]⟩
      · exact Or.inl ⟨s, hs, rfl⟩
    | null => exact Or.inr ⟨_, rfl, rfl, by simp [lineFrag, hg]⟩
    | bool b =>
      refine Or.inr ⟨_, rfl, ?_, by simp [lineFrag, hg]⟩
      simpa [lineSafe, hg, Json.truthy] using hl
    | num n =>
      refine Or.inr ⟨_, rfl, ?_, by simp [lineFrag, hg]⟩
      simpa [lineSafe, hg, Json.truthy] using hl
    | arr elems =>
      refine Or.inr ⟨_, rfl, ?_, by simp [lineFrag, hg]⟩
      simpa [lineSafe, hg, Json.truthy] using hl
    | obj fields =>
      refine Or.inr ⟨_, rfl, ?_, by simp [lineFrag, hg]⟩
      simpa [lineSafe, hg, Json.truthy] using hl

/-- On safe lines the stitching loop never raises: it collects exactly
the non-empty `message.content` fragments (as strings, in order),
counts them as the valid chunks, and counts the undecodable lines as
the invalid chunks. -/
theorem stitchLoop_safe (lines : List StreamLine)
    (h : ∀ l ∈ lines, lineSafe l = true) :
    stitchLoop lines = .ok ((lines.filterMap lineFrag).map Json.str,
      (lines.filterMap lineFrag).length, countInvalid lines) := by
  induction lines with
  | nil => rfl
  | cons l rest ih =>
    have hl : lineSafe l = true := h l (List.mem_cons_self ..)
    have ih' := ih fun x hx => h x (List.mem_cons_of_mem _ hx)
    cases l with
    | blank =>
      simpa [stitchLoop, lineFrag, countInvalid, List.countP_cons,
        isInvalidLine] using ih'
    | invalid =>
      simp [stitchLoop, ih', lineFrag, countInvalid, List.countP_cons,
        isInvalidLine]
    | parsed j =>
      rcases lineSafe_elim hl with ⟨s, hs, hg⟩ | ⟨v, hg, htv, hfrag⟩
      · simp [stitchLoop, hg, Json.truthy, hs, lineFrag, ih', countInvalid,
          List.countP_cons, isInvalidLine]
      · simp [stitchLoop, hg, htv, hfrag, ih', countInvalid,
          List.countP_cons, isInvalidLine]

/-- Joining a list of strings never raises and concatenates in order. -/
theorem joinStrs_map_str (fs : List String) :
    joinStrs (fs.map Json.str) = .ok (concatAll fs) := by
  induction fs with
  | nil => rfl
  | cons s rest ih => simp [joinStrs, ih, concatAll]

/-- On safe lines the assembler returns the stripped concatenation of
the non-empty fragments when that is non-empty, and the empty-response
error otherwise. -/
theorem assemble_safe (lines : List StreamLine)
    (h : ∀ l ∈ lines, lineSafe l = true) :
    assemble lines =
      if pyStrip (concatAll (lines.filterMap lineFrag)) = "" then
        .error (.llmResponse "LLM returned empty response")
      else .ok (pyStrip (concatAll (lines.filterMap lineFrag))) := by
  simp [assemble, stitchLoop_safe lines h, joinStrs_map_str]

/-- Mapping underscores away is the identity on a list without them. -/
theorem map_underscore_eq_self {l : List Char} (h : ∀ c ∈ l, c ≠ '_') :
    (l.map fun c => if c = '_' then '-' else c) = l := by
  induction l with
  | nil => rfl
  | cons c cs ih =>
    have hc : c ≠ '_' := h c (List.mem_cons_self ..)
    simp [hc, ih fun x hx => h x (List.mem_cons_of_mem _ hx)]

/-- Normalization fixes any tool name without underscores. -/
theorem normalizeTool_eq_self {t : String} (h : ∀ c ∈ t.data, c ≠ '_') :
    normalizeTool t = t := by
  cases t with
  | mk data =>
    show String.mk (data.map fun c => if c = '_' then '-' else c) = ⟨data⟩
    rw [map_underscore_eq_self h]

/-- A middle factor of a string concatenation is an infix of it. -/
theorem substr_mid (pre mid suf : String) :
    mid.data <:+: (pre ++ mid ++ suf).data :=
  ⟨pre.data, suf.data, by simp [String.data_append]⟩

/-- C6: tool-name normalization is a pure total function replacing every
underscore with a hyphen: it maps `post_call` to `post-call` and
`comments_call` to `comments-call`, fixes every name without
underscores, and is idempotent. -/
theorem c6_normalize_tool :
    normalizeTool "post_call" = "post-call"
    ∧ normalizeTool "comments_call" = "comments-call"
    ∧ (∀ t : String, (∀ c ∈ t.data, c ≠ '_') → normalizeTool t = t)
    ∧ (∀ t : String, normalizeTool (normalizeTool t) = normalizeTool t) := by
  refine ⟨rfl, rfl, fun t h => normalizeTool_eq_self h, fun t => ?_⟩
  apply normalizeTool_eq_self
  intro c hc
  replace hc : c ∈ t.data.map fun d => if d = '_' then '-' else d := hc
  rcases List.mem_map.1 hc with ⟨d, _, rfl⟩
  by_cases hd : d = '_' <;> simp [hd]

/-- C6 witness: normalization fixes a concrete underscore-free name. -/
theorem c6_normalize_tool_witness : normalizeTool "abc" = "abc" :=
  c6_normalize_tool.2.2.1 "abc" (by decide)

/-- C10: the dispatch URL is exactly the local base address with
trailing slashes stripped, a single slash, and the tool string with
underscores replaced by hyphens; all other characters — including
slashes, dots and spaces — pass into the URL verbatim with no
sanitization or membership check, and the tool call is still
attempted. -/
theorem c10_dispatch_url_verbatim :
    (∀ localBase t, buildToolUrl localBase t =
        rstripSlash localBase ++ "/" ++ normalizeTool t)
    ∧ (∀ localBase t, (∀ c ∈ t.data, c ≠ '_') →
        buildToolUrl localBase t = rstripSlash localBase ++ "/" ++ t)
    ∧ (∀ t : String, ∀ c ∈ t.data, c ≠ '_' → c ∈ (normalizeTool t).data)
    ∧ buildToolUrl "http://127.0.0.1:8080" "../x y.z/w" =
        "http://127.0.0.1:8080/../x y.z/w"
    ∧ (run_agent decodeOddTool "http://llm" "http://127.0.0.1:8080"
        (.ok [instrLine]) (.resp 200 (some (.num 1)))).toolUrl =
        some "http://127.0.0.1:8080/../x y.z/w"
    ∧ (run_agent decodeOddTool "http://llm" "http://127.0.0.1:8080"
        (.ok [instrLine]) (.resp 200 (some (.num 1)))).toolCalls = 1 := by
  refine ⟨fun _ _ => rfl, fun lb t h => ?_, fun t c hc hne => ?_, rfl, rfl,
    rfl⟩
  · rw [buildToolUrl, normalizeTool_eq_self h]
  · exact List.mem_map.2 ⟨c, hc, by simp [hne]⟩

/-- C10 witness: the URL for a concrete base with a trailing slash and
a hyphenated tool name. -/
theorem c10_dispatch_url_verbatim_witness :
    buildToolUrl "http://127.0.0.1:8080/" "post-call" =
      rstripSlash "http://127.0.0.1:8080/" ++ "/" ++ "post-call" :=
  c10_dispatch_url_verbatim.2.1 "http://127.0.0.1:8080/" "post-call"
    (by decide)

/-- C3: a decoded assembled value that is not an object, misses `tool`
or `args`, or has a wrong-typed `tool` or `args` makes the Instruction
Parser fail with an `LLMResponseError` whose message names the failing
field or condition, and the four field-validation messages are pairwise
distinct. -/
theorem c3_malformed_instruction_messages :
    (∀ j : Json, j.isObj = false →
        parseInstruction j = .error (.llmResponse
          ("Invalid response structure: Expected dict, got " ++
            j.pyTypeName)))
    ∧ (∀ fs, lookupField fs "tool" = none →
        parseInstruction (.obj fs) = .error (.llmResponse
          "Invalid response structure: Missing \x27tool\x27 key in response"))
    ∧ (∀ fs tv, lookupField fs "tool" = some tv →
        lookupField fs "args" = none →
        parseInstruction (.obj fs) = .error (.llmResponse
          "Invalid response structure: Missing \x27args\x27 key in response"))
    ∧ (∀ fs tv av, lookupField fs "tool" = some tv →
        lookupField fs "args" = some av → tv.isStr = false →
        parseInstruction (.obj fs) = .error (.llmResponse
          ("Invalid response structure: Tool must be string, got " ++
            tv.pyTypeName)))
    ∧ (∀ fs t av, lookupField fs "tool" = some (.str t) →
        lookupField fs "args" = some av → av.isObj = false →
        parseInstruction (.obj fs) = .error (.llmResponse
          ("Invalid response structure: Args must be dict, got " ++
            av.pyTypeName)))
    ∧ (∀ tv av : Json,
        ("Invalid response structure: Missing \x27tool\x27 key in response" ≠
          "Invalid response structure: Missing \x27args\x27 key in response")
        ∧ ("Invalid response structure: Missing \x27tool\x27 key in response" ≠
          "Invalid response structure: Tool must be string, got " ++
            tv.pyTypeName)
        ∧ ("Invalid response structure: Missing \x27tool\x27 key in response" ≠
          "Invalid response structure: Args must be dict, got " ++
            av.pyTypeName)
        ∧ ("Invalid response structure: Missing \x27args\x27 key in response" ≠
          "Invalid response structure: Tool must be string, got " ++
            tv.pyTypeName)
        ∧ ("Invalid response structure: Missing \x27args\x27 key in response" ≠
          "Invalid response structure: Args must be dict, got " ++
            av.pyTypeName)
        ∧ ("Invalid response structure: Tool must be string, got " ++
            tv.pyTypeName ≠
          "Invalid response structure: Args must be dict, got " ++
            av.pyTypeName)) := by
  refine ⟨fun j hj => ?_, fun fs h => by simp [parseInstruction, h],
    fun fs tv h1 h2 => by simp [parseInstruction, h1, h2],
    fun fs tv av h1 h2 h3 => ?_, fun fs t av h1 h2 h3 => ?_,
    fun tv av => ?_⟩
  · cases j with
    | obj fields => simp [Json.isObj] at hj
    | null => rfl
    | bool b => rfl
    | num n => rfl
    | str s => rfl
    | arr elems => rfl
  · cases tv with
    | str s => exact absurd h3 (by simp [Json.isStr])
    | null => simp [parseInstruction, h1, h2]
    | bool b => simp [parseInstruction, h1, h2]
    | num n => simp [parseInstruction, h1, h2]
    | arr elems => simp [parseInstruction, h1, h2]
    | obj fields => simp [parseInstruction, h1, h2]
  · cases av with
    | obj fields => exact absurd h3 (by simp [Json.isObj])
    | null => simp [parseInstruction, h1, h2]
    | bool b => simp [parseInstruction, h1, h2]
    | num n => simp [parseInstruction, h1, h2]
    | str s => simp [parseInstruction, h1, h2]
    | arr elems => simp [parseInstruction, h1, h2]
  · cases tv <;> cases av <;> refine ⟨?_, ?_, ?_, ?_, ?_, ?_⟩ <;>
      first
      | decide
      | (simp only [Json.pyTypeName]; decide)

/-- C3 witness: the parser messages at one concrete input per failing
case. -/
theorem c3_malformed_instruction_messages_witness :
    parseInstruction (.num 3) = .error (.llmResponse
      ("Invalid response structure: Expected dict, got " ++
        (Json.num 3).pyTypeName))
    ∧ parseInstruction (.obj []) = .error (.llmResponse
      "Invalid response structure: Missing \x27tool\x27 key in response")
    ∧ parseInstruction (.obj [("tool", .str "x")]) = .error (.llmResponse
      "Invalid response structure: Missing \x27args\x27 key in response")
    ∧ parseInstruction (.obj [("tool", .num 1), ("args", .obj [])]) =
      .error (.llmResponse
        ("Invalid response structure: Tool must be string, got " ++
          (Json.num 1).pyTypeName))
    ∧ parseInstruction (.obj [("tool", .str "x"), ("args", .arr [])]) =
      .error (.llmResponse
        ("Invalid response structure: Args must be dict, got " ++
          (Json.arr []).pyTypeName)) :=
  ⟨c3_malformed_instruction_messages.1 _ rfl,
    c3_malformed_instruction_messages.2.1 _ rfl,
    c3_malformed_instruction_messages.2.2.1 _ (Json.str "x") rfl rfl,
    c3_malformed_instruction_messages.2.2.2.1 _ (Json.num 1) (Json.obj [])
      rfl rfl rfl,
    c3_malformed_instruction_messages.2.2.2.2.1 _ "x" (Json.arr [])
      rfl rfl rfl⟩

/-- C4 counterexample: an instruction whose `tool` is the empty string
is accepted by the Instruction Parser, and the run reaches Dispatch
(the tool endpoint is called once). -/
theorem c4_empty_tool_counterexample :
    parseInstruction (.obj [("tool", .str ""), ("args", .obj [])]) =
      .ok ⟨"", []⟩
    ∧ (run_agent decodeEmptyTool "http://llm" "http://127.0.0.1:8080"
        (.ok [instrLine]) (.resp 404 none)).toolCalls = 1 :=
  ⟨rfl, rfl⟩

/-- C4 amended: the Instruction Parser checks only that `tool` is a
string, so an empty `tool` is accepted and proceeds to Dispatch, whose
URL is the bare base address followed by a slash. -/
theorem c4_empty_tool_accepted (fs a : List (String × Json))
    (h1 : lookupField fs "tool" = some (.str ""))
    (h2 : lookupField fs "args" = some (.obj a)) :
    parseInstruction (.obj fs) = .ok ⟨"", a⟩
    ∧ ∀ localBase, buildToolUrl localBase "" =
        rstripSlash localBase ++ "/" := by
  refine ⟨by simp [parseInstruction, h1, h2], fun lb => ?_⟩
  show rstripSlash lb ++ "/" ++ normalizeTool "" = rstripSlash lb ++ "/"
  simp [normalizeTool]

/-- C4 witness: the amended claim at a concrete two-field object. -/
theorem c4_empty_tool_accepted_witness :
    parseInstruction (.obj [("tool", .str ""), ("args", .obj [("k", .num 1)])]) =
      .ok ⟨"", [("k", .num 1)]⟩
    ∧ ∀ localBase, buildToolUrl localBase "" =
        rstripSlash localBase ++ "/" :=
  c4_empty_tool_accepted [("tool", .str ""), ("args", .obj [("k", .num 1)])]
    [("k", .num 1)] rfl rfl

/-- C9: the `/ask` boundary is a total function on pipeline outcomes:
a success becomes `{result, status: success}` and every error kind —
connection, response, dispatch, or an uncaught exception — becomes a
structured `{error, details, error_type, status: error}` object whose
`error_type` is the taxonomy kind that was raised. -/
theorem c9_boundary_structured :
    (∀ v, ask_llm (.ok v) =
        .obj [("result", v), ("status", .str "success")])
    ∧ (∀ e, ∃ emsg dmsg, ask_llm (.error e) =
        .obj [("error", .str emsg), ("details", .str dmsg),
          ("error_type", .str (errorTypeName e)),
          ("status", .str "error")]) := by
  refine ⟨fun v => rfl, fun e => ?_⟩
  cases e with
  | llmConnection m => exact ⟨_, _, rfl⟩
  | llmResponse m => exact ⟨_, _, rfl⟩
  | toolDispatch m => exact ⟨_, _, rfl⟩
  | uncaught ex => exact ⟨_, _, rfl⟩

/-- C7 counterexample: the timeout dispatch error message contains the
tool name but not the path attempted (`post-call` is not a substring of
the raised message). -/
theorem c7_path_missing_counterexample :
    dispatchTool "post_call" .timeout =
      .error (.toolDispatch "Timeout calling tool \x27post_call\x27")
    ∧ ¬ (normalizeTool "post_call").data <:+:
        "Timeout calling tool \x27post_call\x27".data :=
  ⟨rfl, by decide⟩

/-- C7 amended: every failure while invoking the tool endpoint raises a
`ToolDispatchError`: a 404 is classified distinctly as tool-not-found,
any other non-2xx status carries the status code, an undecodable body
and a timeout or network failure each carry their distinguishing
detail; every such message includes the tool name, but only the
tool-not-found message also includes the path attempted. -/
theorem c7_dispatch_failure_classification (tool : String) :
    (∀ body, dispatchTool tool (.resp 404 body) =
        .error (.toolDispatch ("Tool \x27" ++ tool ++
          ("\x27 not found (path: " ++ normalizeTool tool ++ ")"))))
    ∧ (∀ st body, st ≠ 404 → ¬ (200 ≤ st ∧ st < 300) →
        dispatchTool tool (.resp st body) =
          .error (.toolDispatch ("Tool \x27" ++ tool ++
            ("\x27 returned HTTP " ++ toString st))))
    ∧ (∀ st, 200 ≤ st → st < 300 →
        dispatchTool tool (.resp st none) =
          .error (.toolDispatch ("Tool \x27" ++ tool ++
            "\x27 returned invalid JSON")))
    ∧ dispatchTool tool .timeout =
        .error (.toolDispatch
          ("Timeout calling tool \x27" ++ tool ++ "\x27"))
    ∧ (∀ m, dispatchTool tool (.netError m) =
        .error (.toolDispatch
          ("Network error calling tool \x27" ++ tool ++ ("\x27: " ++ m))))
    ∧ (∀ out m, dispatchTool tool out = .error (.toolDispatch m) →
        tool.data <:+: m.data)
    ∧ (normalizeTool tool).data <:+:
        ("Tool \x27" ++ tool ++ ("\x27 not found (path: " ++
          normalizeTool tool ++ ")")).data := by
  refine ⟨fun body => by simp [dispatchTool], ?_, ?_, rfl, fun m => rfl,
    ?_, ?_⟩
  · intro st body h1 h2
    simp only [dispatchTool]
    rw [if_neg h1, if_neg h2]
  · intro st h1 h2
    have h404 : ¬ st = 404 := by omega
    simp only [dispatchTool]
    rw [if_neg h404, if_pos (⟨h1, h2⟩ : 200 ≤ st ∧ st < 300)]
  · intro out m h
    cases out with
    | timeout =>
      injection h with h1
      injection h1 with h2
      subst h2
      exact substr_mid _ _ _
    | netError s =>
      injection h with h1
      injection h1 with h2
      subst h2
      exact substr_mid _ _ _
    | unexpected s =>
      injection h with h1
      injection h1 with h2
      subst h2
      exact substr_mid _ _ _
    | resp st body =>
      cases body with
      | some j =>
        simp only [dispatchTool] at h
        split at h
        · injection h with h1
          injection h1 with h2
          subst h2
          exact substr_mid _ _ _
        · split at h
          · exact absurd h (by simp)
          · injection h with h1
            injection h1 with h2
            subst h2
            exact substr_mid _ _ _
      | none =>
        simp only [dispatchTool] at h
        split at h
        · injection h with h1
          injection h1 with h2
          subst h2
          exact substr_mid _ _ _
        · split at h
          · injection h with h1
            injection h1 with h2
            subst h2
            exact substr_mid _ _ _
          · injection h with h1
            injection h1 with h2
            subst h2
            exact substr_mid _ _ _
  · exact ⟨("Tool \x27" ++ tool ++ "\x27 not found (path: ").data,
      ")".data, by simp [String.data_append]⟩

/-- C7 witness: classification of a concrete 500 status for a concrete
tool. -/
theorem c7_dispatch_failure_classification_witness :
    dispatchTool "post_call" (.resp 500 none) =
      .error (.toolDispatch ("Tool \x27" ++ "post_call" ++
        ("\x27 returned HTTP " ++ toString 500))) :=
  (c7_dispatch_failure_classification "post_call").2.1 500 none
    (by decide) (by decide)

/-- C1 counterexample: a stream whose single line carries the non-empty
fragment `" "` does not assemble to the trimmed concatenation of its
fragments — the assembler raises the empty-response error instead. -/
theorem c1_whitespace_fragment_counterexample :
    lineFrag wsFragLine = some " "
    ∧ assemble [wsFragLine] ≠
        .ok (pyStrip (concatAll ([wsFragLine].filterMap lineFrag)))
    ∧ assemble [wsFragLine] =
        .error (.llmResponse "LLM returned empty response") := by
  refine ⟨rfl, ?_, rfl⟩
  intro h
  rw [show assemble [wsFragLine] =
    .error (.llmResponse "LLM returned empty response") from rfl] at h
  exact Except.noConfusion h

/-- C1 amended: when every line is whitespace-only, invalid JSON, or an
object carrying a non-empty `message.content` string, and the stripped
concatenation of those fragments (in original line order, with no
separator) is non-empty, the assembler returns exactly that stripped
concatenation; when it strips to empty the assembler instead raises the
empty-response error. -/
theorem c1_assemble_trimmed_concat (lines : List StreamLine)
    (hshape : ∀ l ∈ lines, lineShapeOk l = true)
    (hne : pyStrip (concatAll (lines.filterMap lineFrag)) ≠ "") :
    assemble lines =
      .ok (pyStrip (concatAll (lines.filterMap lineFrag))) := by
  rw [assemble_safe lines fun l hl => lineShapeOk_imp_lineSafe (hshape l hl),
    if_neg hne]

/-- C1 witness: a fragment line interleaved with an invalid and a blank
line assembles to the fragment. -/
theorem c1_assemble_trimmed_concat_witness :
    assemble [.parsed (.obj [("message", .obj [("content", .str "hi")])]),
        .invalid, .blank] =
      .ok (pyStrip (concatAll
        (([.parsed (.obj [("message", .obj [("content", .str "hi")])]),
          .invalid, .blank] : List StreamLine).filterMap lineFrag))) :=
  c1_assemble_trimmed_concat _ (by decide) (by decide)

/-- C2: whenever assembly yields an empty string the Orchestrator
raises `LLMResponseError` with a message containing "empty", before
instruction parsing and before any tool call; in particular so for any
all-invalid stream. -/
theorem c2_empty_assembly_response_error :
    (∀ decode llmBase localBase tool lines c v i s,
        stitchLoop lines = .ok (c, v, i) → joinStrs c = .ok s →
        pyStrip s = "" →
        run_agent decode llmBase localBase (.ok lines) tool =
          ⟨.error (.llmResponse "LLM returned empty response"), 1, 0, 0,
            none⟩)
    ∧ (∀ lines, (∀ l ∈ lines, isInvalidLine l = true) →
        assemble lines =
          .error (.llmResponse "LLM returned empty response"))
    ∧ "empty".data <:+: "LLM returned empty response".data := by
  refine ⟨?_, ?_, by decide⟩
  · intro decode llmBase localBase tool lines c v i s h1 h2 h3
    have ha : assemble lines =
        .error (.llmResponse "LLM returned empty response") := by
      simp [assemble, h1, h2, h3]
    simp [run_agent, callModel, ha]
  · intro lines h
    have hsafe : ∀ l ∈ lines, lineSafe l = true := by
      intro l hl
      have hil := h l hl
      cases l with
      | invalid => rfl
      | blank => rfl
      | parsed j => simp [isInvalidLine] at hil
    have hfrag : lines.filterMap lineFrag = [] := by
      rw [List.filterMap_eq_nil_iff]
      intro l hl
      have hil := h l hl
      cases l with
      | invalid => rfl
      | blank => rfl
      | parsed j => simp [isInvalidLine] at hil
    rw [assemble_safe lines hsafe, hfrag]
    rfl

/-- C2 witness: a stream consisting of one invalid line makes the
Orchestrator fail with the empty-response error, with no parse attempt
and no tool call. -/
theorem c2_empty_assembly_response_error_witness :
    run_agent (fun _ => .error "boom") "http://llm" "http://local"
      (.ok [.invalid]) .timeout =
      ⟨.error (.llmResponse "LLM returned empty response"), 1, 0, 0,
        none⟩ :=
  c2_empty_assembly_response_error.1 _ "http://llm" "http://local"
    .timeout [.invalid] [] 0 1 "" rfl rfl rfl

/-- C5 counterexample: lines that decode successfully can abort
assembly: a non-object chunk and a chunk with a non-object `message`
raise an uncaught `AttributeError`, and a chunk whose `content` is a
truthy non-string raises an uncaught `TypeError`. -/
theorem c5_parsed_line_aborts_counterexample :
    assemble [.parsed (.num 5)] = .error (.uncaught .attributeError)
    ∧ assemble [.parsed (.obj [("message", .num 5)])] =
        .error (.uncaught .attributeError)
    ∧ assemble [.parsed (.obj [("message", .obj [("content", .num 7)])])] =
        .error (.uncaught .typeError) :=
  ⟨rfl, rfl, rfl⟩

/-- C5 amended: assembly never aborts on streams whose decoded lines
are objects with an object (or absent) `message` and a string or falsy
`content` — such lines with no non-empty string fragment contribute
nothing, and exactly the undecodable lines are dropped and counted; but
a decoded line outside those shapes raises an uncaught exception. -/
theorem c5_assembly_total_on_safe_lines (lines : List StreamLine)
    (h : ∀ l ∈ lines, lineSafe l = true) :
    stitchLoop lines = .ok ((lines.filterMap lineFrag).map Json.str,
        (lines.filterMap lineFrag).length, countInvalid lines)
    ∧ ∀ e, assemble lines ≠ .error (.uncaught e) := by
  refine ⟨stitchLoop_safe lines h, fun e hcontra => ?_⟩
  rw [assemble_safe lines h] at hcontra
  by_cases hif : pyStrip (concatAll (lines.filterMap lineFrag)) = ""
  · rw [if_pos hif] at hcontra
    injection hcontra with h1
    exact AgentErr.noConfusion h1
  · rw [if_neg hif] at hcontra
    exact Except.noConfusion hcontra

/-- C5 witness: the amended claim at a concrete safe stream with a
blank line, an invalid line, a fragment chunk and a falsy-content
chunk. -/
theorem c5_assembly_total_on_safe_lines_witness :
    stitchLoop safeLines =
      .ok ((safeLines.filterMap lineFrag).map Json.str,
        (safeLines.filterMap lineFrag).length, countInvalid safeLines)
    ∧ ∀ e, assemble safeLines ≠ .error (.uncaught e) :=
  c5_assembly_total_on_safe_lines safeLines (by decide)

/-- C8: whenever the model call fails, the Orchestrator stops with an
`LLMConnectionError`, never reaching instruction parsing or the tool
endpoint; and on every run the model endpoint is called exactly once
and the tool endpoint at most once — there is no retry anywhere. -/
theorem c8_model_failure_no_tool_call :
    (∀ decode llmBase localBase m tool,
        (∀ lines, m ≠ ModelOutcome.ok lines) →
        ∃ msg, (run_agent decode llmBase localBase m tool).result =
            .error (.llmConnection msg)
          ∧ (run_agent decode llmBase localBase m tool).toolCalls = 0
          ∧ (run_agent decode llmBase localBase m tool).parseAttempts = 0
          ∧ (run_agent decode llmBase localBase m tool).toolUrl = none)
    ∧ (∀ decode llmBase localBase m tool,
        (run_agent decode llmBase localBase m tool).modelCalls = 1
        ∧ (run_agent decode llmBase localBase m tool).toolCalls ≤ 1) := by
  constructor
  · intro decode llmBase localBase m tool hm
    cases m with
    | ok lines => exact absurd rfl (hm lines)
    | timeout => exact ⟨_, rfl, rfl, rfl, rfl⟩
    | httpStatus code => exact ⟨_, rfl, rfl, rfl, rfl⟩
    | netError s => exact ⟨_, rfl, rfl, rfl, rfl⟩
    | unexpected s => exact ⟨_, rfl, rfl, rfl, rfl⟩
  · intro decode llmBase localBase m tool
    cases m with
    | timeout => exact ⟨rfl, Nat.zero_le 1⟩
    | httpStatus code => exact ⟨rfl, Nat.zero_le 1⟩
    | netError s => exact ⟨rfl, Nat.zero_le 1⟩
    | unexpected s => exact ⟨rfl, Nat.zero_le 1⟩
    | ok lines =>
      unfold run_agent
      cases hA : assemble lines with
      | error e => simp [callModel, hA]
      | ok s =>
        cases hP : parseAssembled decode s with
        | error e => simp [callModel, hA, hP]
        | ok instr => simp [callModel, hA, hP]

/-- C8 witness: a model timeout yields a connection error with zero
parse attempts and zero tool calls. -/
theorem c8_model_failure_no_tool_call_witness :
    ∃ msg, (run_agent (fun _ => .error "x") "http://llm" "http://local"
        .timeout .timeout).result = .error (.llmConnection msg)
      ∧ (run_agent (fun _ => .error "x") "http://llm" "http://local"
          .timeout .timeout).toolCalls = 0
      ∧ (run_agent (fun _ => .error "x") "http://llm" "http://local"
          .timeout .timeout).parseAttempts = 0
      ∧ (run_agent (fun _ => .error "x") "http://llm" "http://local"
          .timeout .timeout).toolUrl = none :=
  c8_model_failure_no_tool_call.1 _ "http://llm" "http://local"
    .timeout .timeout (fun _ hcon => ModelOutcome.noConfusion hcon)

end MCP
